import Mathlib

/-!
Verification of the GitHub OAuth authentication service of the articledj
repository.  The embedding below translates, function by function, the code of
custom_auth/services/github_service/github_oauth.py and of
custom_auth/api/v1/views.py, together with the uniqueness-constrained user
table of accounts/models.py.

Network effects (token endpoint, user endpoint, user-emails endpoint) are
modelled by an oracle structure Network whose fields give, for each request,
either the parsed JSON body or the text of the raised transport exception.
The Django ORM is modelled by an oracle structure DB with the three operations
the service uses (update_or_create keyed by github_id, get by email, save);
an honest sequential instance seqDB over a list of rows is provided, and every
database interaction performed by a call is also reported as a DBEvent trace so
that frame properties (which writes happened) can be stated.
-/

/-- Data model of one entry of the GitHub user-emails endpoint response. -/
structure EmailRecord where
  email : String
  primary : Bool
  verified : Bool
deriving DecidableEq

/-- Data model of the GitHub user endpoint response, with the keys the service
reads; optional fields model keys that may be absent from the JSON object. -/
structure GitHubUserData where
  id : Nat
  email : Option String
  login : Option String
  name : Option String
  html_url : Option String
deriving DecidableEq

/-- Data model of one row of the accounts User table: the fields written by the
OAuth service plus the extra declared fields of accounts/models.py, and the
implicit primary key id. -/
structure User where
  id : Nat
  github_id : Option String
  email : Option String
  github_username : String
  first_name : String
  last_name : String
  github_profile_url : String
  username : Option String
  user_type : Nat
  is_verified : Bool
deriving DecidableEq

/-- Data model of the user_data defaults dictionary built by
get_or_create_user. -/
structure UserData where
  github_id : String
  email : String
  github_username : String
  first_name : String
  last_name : String
  github_profile_url : String
deriving DecidableEq

/-- Data model of the parsed token endpoint response body: the access_token key
may be absent. -/
structure TokenResponse where
  access_token : Option String
deriving DecidableEq

/-- Oracle for the three outbound HTTP calls; an error value carries the text
of the requests exception (timeout, transport failure or non-2xx status). -/
structure Network where
  tokenResponse : String → Except String TokenResponse
  userResponse : String → Except String GitHubUserData
  emailsResponse : String → Except String (List EmailRecord)

/-- Exceptions that can escape the service layer: GitHubOAuthError with its
detail text, or an uncaught database IntegrityError with its message. -/
inductive Exc where
  | gitHubOAuthError (detail : String)
  | integrityError (msg : String)
deriving DecidableEq

/-- Oracle for the account store operations used by the service, over an
abstract store state.  update_or_create is keyed by github_id and either
returns the new state, the row and the created flag, or fails with the message
of a uniqueness IntegrityError (leaving the state unchanged). -/
structure DB (σ : Type) where
  update_or_create : σ → String → UserData → Except String (σ × User × Bool)
  get_by_email : σ → String → Option User
  save : σ → User → σ

/-- Trace entry for one database interaction performed by the service. -/
inductive DBEvent where
  | upsertCall (github_id : String) (defaults : UserData)
  | getByEmailCall (email : String)
  | saveCall (u : User)
deriving DecidableEq

/-- Lowercasing of a string, character by character. -/
def lowerStr (s : String) : String :=
  String.mk (s.toList.map Char.toLower)

/-- Substring test over character lists. -/
def isInfixCL : List Char → List Char → Bool
  | pat, [] => pat.isEmpty
  | pat, c :: cs => pat.isPrefixOf (c :: cs) || isInfixCL pat cs

/-- Substring test over strings. -/
def strContainsSub (hay pat : String) : Bool :=
  isInfixCL pat.toList hay.toList

/-- The test the except branch of get_or_create_user applies to the
IntegrityError message: the word email occurs in the lowercased message. -/
def emailInMsg (msg : String) : Bool :=
  strContainsSub (lowerStr msg) "email"

/-- Python truthiness of an optional string: None and the empty string are
falsy. -/
def optFalsy : Option String → Bool
  | none => true
  | some s => s = ""

/-- Embedding of GitHubOAuthService.get_access_token: posts to the token
endpoint; a transport failure becomes a GitHubOAuthError with the request
failure text, a response without an access_token key becomes a GitHubOAuthError
with the fixed detail, otherwise the token is returned. -/
def get_access_token (net : Network) (code : String) : Except Exc String :=
  match net.tokenResponse code with
  | .error e => .error (.gitHubOAuthError ("GitHub API request failed: " ++ e))
  | .ok data =>
    match data.access_token with
    | none => .error (.gitHubOAuthError "Failed to obtain access token from GitHub")
    | some t => .ok t

/-- Embedding of GitHubOAuthService.get_user_information: fetches the user
profile; a transport failure becomes a GitHubOAuthError. -/
def get_user_information (net : Network) (access_token : String) :
    Except Exc GitHubUserData :=
  match net.userResponse access_token with
  | .error e => .error (.gitHubOAuthError ("Failed to fetch user info from GitHub: " ++ e))
  | .ok d => .ok d

/-- Embedding of GitHubOAuthService.get_user_emails: fetches the email list;
any transport failure is swallowed and yields the empty list. -/
def get_user_emails (net : Network) (access_token : String) : List EmailRecord :=
  match net.emailsResponse access_token with
  | .error _ => []
  | .ok l => l

/-- Split of a character list at the first space, mirroring the Python
split with maxsplit one. -/
def splitFirstSpace : List Char → List Char × Option (List Char)
  | [] => ([], none)
  | c :: cs =>
    if c = ' ' then ([], some cs)
    else
      let r := splitFirstSpace cs
      (c :: r.1, r.2)

/-- Embedding of GitHubOAuthService._extract_name_parts: an absent or empty
full name gives two empty parts; otherwise the name is split at the first
space, the remainder (possibly empty) being the last name. -/
def _extract_name_parts (full_name : Option String) : String × String :=
  match full_name with
  | none => ("", "")
  | some s =>
    if s = "" then ("", "")
    else
      let r := splitFirstSpace s.toList
      (String.mk r.1, (r.2.map String.mk).getD "")

/-- First pass of _get_primary_email: the address of the first record flagged
both primary and verified. -/
def findPrimaryVerifiedEmail : List EmailRecord → Option String
  | [] => none
  | e :: es =>
    if e.primary && e.verified then some e.email else findPrimaryVerifiedEmail es

/-- Second pass of _get_primary_email: the address of the first record flagged
verified. -/
def findVerifiedEmail : List EmailRecord → Option String
  | [] => none
  | e :: es => if e.verified then some e.email else findVerifiedEmail es

/-- Embedding of GitHubOAuthService._get_primary_email: two passes over the
email records, first loop for primary and verified, second loop for verified,
else none. -/
def _get_primary_email (emails_data : List EmailRecord) : Option String :=
  match findPrimaryVerifiedEmail emails_data with
  | some e => some e
  | none => findVerifiedEmail emails_data

/-- The synthesized placeholder address used by get_or_create_user when no
email could be resolved. -/
def placeholder_email (gd : GitHubUserData) : String :=
  gd.login.getD "github" ++ "-" ++ toString gd.id ++ "@users.noreply.github.com"

/-- The hardcoded fallback address used by the second repair branch of
get_or_create_user. -/
def fallback_email (github_id : String) : String :=
  "github-" ++ github_id ++ "@users.noreply.github.com"

/-- Email determination block of get_or_create_user: the declared email if
truthy, else the primary or verified email of the fetched list, else the
synthesized placeholder. -/
def resolve_email (net : Network) (gd : GitHubUserData) (access_token : String) :
    String :=
  let e1 := if optFalsy gd.email then
      _get_primary_email (get_user_emails net access_token)
    else gd.email
  if optFalsy e1 then placeholder_email gd else e1.getD ""

/-- The user_data defaults dictionary built by get_or_create_user. -/
def mk_user_data (net : Network) (gd : GitHubUserData) (access_token : String) :
    UserData :=
  { github_id := toString gd.id
    email := resolve_email net gd access_token
    github_username := gd.login.getD ""
    first_name := (_extract_name_parts gd.name).1
    last_name := (_extract_name_parts gd.name).2
    github_profile_url := gd.html_url.getD "" }

/-- The in-place update performed by the first repair branch of
get_or_create_user on the account owning the conflicting email: exactly the
github_id, github_username and github_profile_url fields are assigned. -/
def attach_provider_identity (u : User) (github_id : String) (d : UserData) :
    User :=
  { u with
    github_id := some github_id
    github_username := d.github_username
    github_profile_url := d.github_profile_url }

/-- Embedding of GitHubOAuthService.get_or_create_user, returning the outcome
and the trace of database interactions.  The upsert by github_id is attempted;
on an IntegrityError whose message mentions email, the account owning the
resolved email is looked up and, if found, the provider identity is attached to
it and it is saved; if not found, the upsert is retried with the hardcoded
fallback email, a second failure escaping as a raw IntegrityError.  A non-email
IntegrityError raises GitHubOAuthError with the message appended. -/
def get_or_create_user {σ : Type} (net : Network) (db : DB σ) (s : σ)
    (gd : GitHubUserData) (access_token : String) :
    Except Exc (σ × User × Bool) × List DBEvent :=
  let github_id := toString gd.id
  let email := resolve_email net gd access_token
  let user_data := mk_user_data net gd access_token
  match db.update_or_create s github_id user_data with
  | .ok r => (.ok r, [.upsertCall github_id user_data])
  | .error msg =>
    if emailInMsg msg then
      match db.get_by_email s email with
      | some u =>
        let u' := attach_provider_identity u github_id user_data
        (.ok (db.save s u', u', false),
          [.upsertCall github_id user_data, .getByEmailCall email, .saveCall u'])
      | none =>
        let user_data' := { user_data with email := fallback_email github_id }
        match db.update_or_create s github_id user_data' with
        | .ok r =>
          (.ok r,
            [.upsertCall github_id user_data, .getByEmailCall email,
              .upsertCall github_id user_data'])
        | .error msg2 =>
          (.error (.integrityError msg2),
            [.upsertCall github_id user_data, .getByEmailCall email,
              .upsertCall github_id user_data'])
    else
      (.error (.gitHubOAuthError ("User creation failed: " ++ msg)),
        [.upsertCall github_id user_data])

/-- Body of the try block of GitHubOAuthService.authenticate_user: token
exchange, then profile fetch, then account reconciliation. -/
def authenticate_user_body {σ : Type} (net : Network) (db : DB σ) (s : σ)
    (code : String) : Except Exc (σ × User × Bool × String) × List DBEvent :=
  match get_access_token net code with
  | .error e => (.error e, [])
  | .ok access_token =>
    match get_user_information net access_token with
    | .error e => (.error e, [])
    | .ok gd =>
      match get_or_create_user net db s gd access_token with
      | (.ok (s', u, c), evs) => (.ok (s', u, c, access_token), evs)
      | (.error e, evs) => (.error e, evs)

/-- The except clause of authenticate_user: a GitHubOAuthError is re-raised
unchanged, any other exception is wrapped into a GitHubOAuthError keeping its
text. -/
def wrap_exception : Exc → Exc
  | .gitHubOAuthError d => .gitHubOAuthError d
  | .integrityError m => .gitHubOAuthError ("Authentication failed: " ++ m)

/-- Embedding of GitHubOAuthService.authenticate_user: the body wrapped by the
except clause. -/
def authenticate_user {σ : Type} (net : Network) (db : DB σ) (s : σ)
    (code : String) : Except Exc (σ × User × Bool × String) × List DBEvent :=
  match authenticate_user_body net db s code with
  | (.ok r, evs) => (.ok r, evs)
  | (.error e, evs) => (.error (wrap_exception e), evs)

/-- Replacement of the row with the given primary key. -/
def replaceById (store : List User) (uid : Nat) (u' : User) : List User :=
  store.map (fun v => if v.id = uid then u' else v)

/-- Assignment of the defaults dictionary onto an existing row, as the update
branch of update_or_create performs it. -/
def applyDefaults (u : User) (d : UserData) : User :=
  { u with
    github_id := some d.github_id
    email := some d.email
    github_username := d.github_username
    first_name := d.first_name
    last_name := d.last_name
    github_profile_url := d.github_profile_url }

/-- A fresh row built from the defaults dictionary, the remaining model fields
taking their declared model defaults. -/
def newUserFromDefaults (uid : Nat) (d : UserData) : User :=
  { id := uid
    github_id := some d.github_id
    email := some d.email
    github_username := d.github_username
    first_name := d.first_name
    last_name := d.last_name
    github_profile_url := d.github_profile_url
    username := none
    user_type := 2
    is_verified := false }

/-- The store-level uniqueness test on email: the write keyed by the given
github_id violates the unique email constraint exactly when a different row
already carries that address. -/
def emailConflict (store : List User) (github_id : String) (email : String) :
    Bool :=
  store.any (fun u => u.email == some email && u.github_id != some github_id)

/-- A primary key not yet used by the store. -/
def freshId (store : List User) : Nat :=
  (store.map (fun u => u.id)).foldr max 0 + 1

/-- Honest sequential semantics of User.objects.update_or_create keyed by
github_id: a violated email uniqueness constraint raises IntegrityError with
the database message; otherwise the row with that github_id is updated in
place, or a fresh row is inserted. -/
def seqUpdateOrCreate (store : List User) (github_id : String) (d : UserData) :
    Except String (List User × User × Bool) :=
  if emailConflict store github_id d.email then
    .error "UNIQUE constraint failed: accounts_user.email"
  else
    match store.find? (fun u => u.github_id == some github_id) with
    | some u =>
      let u' := applyDefaults u d
      .ok (replaceById store u.id u', u', false)
    | none =>
      let u := newUserFromDefaults (freshId store) d
      .ok (store ++ [u], u, true)

/-- Honest sequential semantics of User.objects.get keyed by email. -/
def seqGetByEmail (store : List User) (email : String) : Option User :=
  store.find? (fun u => u.email == some email)

/-- Honest sequential semantics of user.save: the row with the same primary
key is replaced. -/
def seqSave (store : List User) (u' : User) : List User :=
  replaceById store u'.id u'

/-- The honest sequential account store. -/
def seqDB : DB (List User) :=
  { update_or_create := seqUpdateOrCreate
    get_by_email := seqGetByEmail
    save := seqSave }

/-- Data model of the inbound request body: the code key may be absent. -/
structure RequestData where
  code : Option String
deriving DecidableEq

/-- Body of an HTTP response of the callback view. -/
inductive RespBody where
  | errorBody (error : String)
  | tokenBody (refresh : String) (access : String)
deriving DecidableEq

/-- An HTTP response of the callback view. -/
structure HttpResponse where
  status : Nat
  body : Option RespBody
deriving DecidableEq

/-- Embedding of the github_oauth_callback view.  Reading the code key of the
request data by subscript raises KeyError when the key is absent, before the
emptiness check and outside the try block; an empty code yields the 400
response with the error body; inside the try block any exception yields a bare
400 response, and success yields the refresh and access tokens minted by the
token issuer collaborator. -/
def github_oauth_callback {σ : Type} (net : Network) (db : DB σ) (s : σ)
    (issue_tokens : User → String × String) (req : RequestData) :
    Except String HttpResponse :=
  match req.code with
  | none => .error "KeyError: code"
  | some code =>
    if code = "" then
      .ok { status := 400, body := some (.errorBody "Authorization code is required") }
    else
      match get_access_token net code with
      | .error _ => .ok { status := 400, body := none }
      | .ok tok =>
        match get_user_information net tok with
        | .error _ => .ok { status := 400, body := none }
        | .ok gd =>
          match (get_or_create_user net db s gd tok).1 with
          | .error _ => .ok { status := 400, body := none }
          | .ok (_, user, _) =>
            let p := issue_tokens user
            .ok { status := 200, body := some (.tokenBody p.1 p.2) }

theorem findPrimaryVerifiedEmail_eq_find (l : List EmailRecord) :
    findPrimaryVerifiedEmail l =
      (l.find? (fun e => e.primary && e.verified)).map (fun e => e.email) := by
  induction l with
  | nil => rfl
  | cons e es ih =>
    by_cases h : (e.primary && e.verified) = true
    · simp [findPrimaryVerifiedEmail, List.find?_cons, h]
    · simp only [Bool.not_eq_true] at h
      simp [findPrimaryVerifiedEmail, List.find?_cons, h, ih]

theorem findVerifiedEmail_eq_find (l : List EmailRecord) :
    findVerifiedEmail l = (l.find? (fun e => e.verified)).map (fun e => e.email) := by
  induction l with
  | nil => rfl
  | cons e es ih =>
    by_cases h : e.verified = true
    · simp [findVerifiedEmail, List.find?_cons, h]
    · simp only [Bool.not_eq_true] at h
      simp [findVerifiedEmail, List.find?_cons, h, ih]

theorem mk_user_data_email (net : Network) (gd : GitHubUserData) (tok : String) :
    (mk_user_data net gd tok).email = resolve_email net gd tok := rfl

theorem gocu_upsert_ok {σ : Type} (net : Network) (db : DB σ) (s : σ)
    (gd : GitHubUserData) (tok : String) (r : σ × User × Bool)
    (hup : db.update_or_create s (toString gd.id) (mk_user_data net gd tok) = .ok r) :
    get_or_create_user net db s gd tok =
      (.ok r, [.upsertCall (toString gd.id) (mk_user_data net gd tok)]) := by
  simp only [get_or_create_user, hup]

theorem gocu_repair_attach {σ : Type} (net : Network) (db : DB σ) (s : σ)
    (gd : GitHubUserData) (tok : String) (msg : String) (u : User)
    (hup : db.update_or_create s (toString gd.id) (mk_user_data net gd tok) = .error msg)
    (hmsg : emailInMsg msg = true)
    (hget : db.get_by_email s (resolve_email net gd tok) = some u) :
    get_or_create_user net db s gd tok =
      (.ok (db.save s (attach_provider_identity u (toString gd.id) (mk_user_data net gd tok)),
            attach_provider_identity u (toString gd.id) (mk_user_data net gd tok), false),
        [.upsertCall (toString gd.id) (mk_user_data net gd tok),
          .getByEmailCall (resolve_email net gd tok),
          .saveCall (attach_provider_identity u (toString gd.id) (mk_user_data net gd tok))]) := by
  simp only [get_or_create_user, hup, hmsg, hget, if_true]

theorem gocu_repair_fallback {σ : Type} (net : Network) (db : DB σ) (s : σ)
    (gd : GitHubUserData) (tok : String) (msg : String)
    (hup : db.update_or_create s (toString gd.id) (mk_user_data net gd tok) = .error msg)
    (hmsg : emailInMsg msg = true)
    (hget : db.get_by_email s (resolve_email net gd tok) = none) :
    get_or_create_user net db s gd tok =
      ((match db.update_or_create s (toString gd.id)
          { mk_user_data net gd tok with email := fallback_email (toString gd.id) } with
        | .ok r => .ok r
        | .error msg2 => .error (.integrityError msg2)),
        [.upsertCall (toString gd.id) (mk_user_data net gd tok),
          .getByEmailCall (resolve_email net gd tok),
          .upsertCall (toString gd.id)
            { mk_user_data net gd tok with email := fallback_email (toString gd.id) }]) := by
  simp only [get_or_create_user, hup, hmsg, hget, if_true]
  cases h2 : db.update_or_create s (toString gd.id)
      { mk_user_data net gd tok with email := fallback_email (toString gd.id) } with
  | ok r => rfl
  | error m2 => rfl

theorem gocu_fatal {σ : Type} (net : Network) (db : DB σ) (s : σ)
    (gd : GitHubUserData) (tok : String) (msg : String)
    (hup : db.update_or_create s (toString gd.id) (mk_user_data net gd tok) = .error msg)
    (hmsg : emailInMsg msg = false) :
    get_or_create_user net db s gd tok =
      (.error (.gitHubOAuthError ("User creation failed: " ++ msg)),
        [.upsertCall (toString gd.id) (mk_user_data net gd tok)]) := by
  simp only [get_or_create_user, hup, hmsg, Bool.false_eq_true, if_false]

/-- A network whose every outbound call fails at transport level. -/
def netW : Network :=
  { tokenResponse := fun _ => .error "timeout"
    userResponse := fun _ => .error "down"
    emailsResponse := fun _ => .error "down" }

/-- A concrete GitHub profile carrying a declared email. -/
def gdW : GitHubUserData :=
  { id := 42
    email := some "x@y.com"
    login := some "alice"
    name := some "Ada Lovelace"
    html_url := some "https://github.com/alice" }

/-- A concrete stored account owning the email x@y.com under another
provider id. -/
def ownerW : User :=
  { id := 1
    github_id := some "77"
    email := some "x@y.com"
    github_username := "old"
    first_name := "Eve"
    last_name := "Prior"
    github_profile_url := "https://github.com/old"
    username := none
    user_type := 2
    is_verified := false }

/-- A concrete GitHub profile with no declared email. -/
def gdNoEmailW : GitHubUserData :=
  { id := 7
    email := none
    login := some "bob"
    name := none
    html_url := none }

/-- A network that succeeds on token exchange and profile fetch and fails on
the email fetch. -/
def netOKW : Network :=
  { tokenResponse := fun _ => .ok { access_token := some "tok" }
    userResponse := fun _ => .ok gdW
    emailsResponse := fun _ => .error "down" }

/-- A store oracle whose write always reports an email uniqueness violation
and whose email lookup finds ownerW. -/
def dbAttachW : DB Unit :=
  { update_or_create := fun _ _ _ => .error "UNIQUE constraint failed: accounts_user.email"
    get_by_email := fun _ _ => some ownerW
    save := fun s _ => s }

/-- A store oracle modelling the vanished-owner race: the write with the
original email reports an email uniqueness violation, the email lookup finds
nothing, and the write with the fallback email succeeds. -/
def dbVanishedW : DB Unit :=
  { update_or_create := fun s gid d =>
      if d.email = fallback_email gid then .ok (s, newUserFromDefaults 1 d, true)
      else .error "UNIQUE constraint failed: accounts_user.email"
    get_by_email := fun _ _ => none
    save := fun s _ => s }

/-- A store oracle whose write reports a uniqueness violation on username. -/
def dbUsernameFailW : DB Unit :=
  { update_or_create := fun _ _ _ => .error "UNIQUE constraint failed: accounts_user.username"
    get_by_email := fun _ _ => some ownerW
    save := fun s _ => s }

/-- A store oracle whose every write, the fallback retry included, reports an
email uniqueness violation while the email lookup finds nothing. -/
def dbRetryFailW : DB Unit :=
  { update_or_create := fun _ _ _ => .error "UNIQUE constraint failed: accounts_user.email"
    get_by_email := fun _ _ => none
    save := fun s _ => s }

/-- A token issuer collaborator minting fixed session tokens. -/
def issueW : User → String × String := fun _ => ("refresh-token", "access-token")

/-- C2: _get_primary_email returns the address of the first record flagged both
primary and verified, else the address of the first record flagged verified,
else none; on the two listed example sequences it returns the second entry and
the first entry respectively. -/
theorem get_primary_email_policy :
    (∀ l : List EmailRecord,
      _get_primary_email l =
        match l.find? (fun e => e.primary && e.verified) with
        | some e => some e.email
        | none => (l.find? (fun e => e.verified)).map (fun e => e.email))
    ∧ _get_primary_email
        [{ email := "a@x", primary := false, verified := false },
          { email := "b@x", primary := true, verified := true },
          { email := "c@x", primary := false, verified := true }] = some "b@x"
    ∧ _get_primary_email
        [{ email := "a@x", primary := false, verified := true },
          { email := "b@x", primary := false, verified := false }] = some "a@x" := by
  refine ⟨fun l => ?_, by decide, by decide⟩
  unfold _get_primary_email
  rw [findPrimaryVerifiedEmail_eq_find, findVerifiedEmail_eq_find]
  cases l.find? (fun e => e.primary && e.verified) <;> rfl

/-- C3: when the identity declares no email and the email fetch plus selection
yields no address, the email used for the record is the synthesized
placeholder, of the stated form, and the reconciliation succeeds, the created
record carrying that placeholder address. -/
theorem no_email_synthesizes_placeholder (net : Network) (gd : GitHubUserData)
    (tok : String)
    (h1 : optFalsy gd.email = true)
    (h2 : _get_primary_email (get_user_emails net tok) = none) :
    resolve_email net gd tok = placeholder_email gd
    ∧ placeholder_email gd =
        gd.login.getD "github" ++ "-" ++ toString gd.id ++ "@users.noreply.github.com"
    ∧ get_or_create_user net seqDB [] gd tok =
        (.ok ([newUserFromDefaults 1 (mk_user_data net gd tok)],
              newUserFromDefaults 1 (mk_user_data net gd tok), true),
          [.upsertCall (toString gd.id) (mk_user_data net gd tok)])
    ∧ (newUserFromDefaults 1 (mk_user_data net gd tok)).email =
        some (placeholder_email gd) := by
  have hres : resolve_email net gd tok = placeholder_email gd := by
    have he1 : (if optFalsy gd.email = true then
        _get_primary_email (get_user_emails net tok) else gd.email) = none := by
      rw [h1]
      simpa using h2
    simp only [resolve_email]
    rw [he1]
    exact if_pos rfl
  have hup : seqUpdateOrCreate [] (toString gd.id) (mk_user_data net gd tok) =
      .ok ([newUserFromDefaults 1 (mk_user_data net gd tok)],
        newUserFromDefaults 1 (mk_user_data net gd tok), true) := rfl
  refine ⟨hres, rfl, gocu_upsert_ok net seqDB [] gd tok _ hup, ?_⟩
  show some (mk_user_data net gd tok).email = some (placeholder_email gd)
  rw [mk_user_data_email, hres]

/-- Witness for C3, at a profile with no declared email and a network whose
email fetch fails. -/
theorem no_email_synthesizes_placeholder_witness :
    resolve_email netW gdNoEmailW "t" = placeholder_email gdNoEmailW
    ∧ placeholder_email gdNoEmailW =
        gdNoEmailW.login.getD "github" ++ "-" ++ toString gdNoEmailW.id ++
          "@users.noreply.github.com"
    ∧ get_or_create_user netW seqDB [] gdNoEmailW "t" =
        (.ok ([newUserFromDefaults 1 (mk_user_data netW gdNoEmailW "t")],
              newUserFromDefaults 1 (mk_user_data netW gdNoEmailW "t"), true),
          [.upsertCall (toString gdNoEmailW.id) (mk_user_data netW gdNoEmailW "t")])
    ∧ (newUserFromDefaults 1 (mk_user_data netW gdNoEmailW "t")).email =
        some (placeholder_email gdNoEmailW) :=
  no_email_synthesizes_placeholder netW gdNoEmailW "t" (by decide) (by decide)

/-- C1: when an existing account owns the resolved email under a different
provider id and the upsert fails with the email uniqueness violation,
get_or_create_user attaches the incoming provider id, login handle and profile
url to that account, returns it with created false, and the store keeps the
same number of records. -/
theorem repair_attaches_provider_to_email_owner
    (net : Network) (store : List User) (gd : GitHubUserData) (tok : String)
    (owner : User)
    (hfind : seqGetByEmail store (resolve_email net gd tok) = some owner)
    (hdiff : owner.github_id ≠ some (toString gd.id)) :
    get_or_create_user net seqDB store gd tok =
      (.ok (seqSave store
              (attach_provider_identity owner (toString gd.id) (mk_user_data net gd tok)),
            attach_provider_identity owner (toString gd.id) (mk_user_data net gd tok),
            false),
        [.upsertCall (toString gd.id) (mk_user_data net gd tok),
          .getByEmailCall (resolve_email net gd tok),
          .saveCall (attach_provider_identity owner (toString gd.id) (mk_user_data net gd tok))])
    ∧ (attach_provider_identity owner (toString gd.id) (mk_user_data net gd tok)).github_id
        = some (toString gd.id)
    ∧ (attach_provider_identity owner (toString gd.id) (mk_user_data net gd tok)).github_username
        = gd.login.getD ""
    ∧ (attach_provider_identity owner (toString gd.id) (mk_user_data net gd tok)).github_profile_url
        = gd.html_url.getD ""
    ∧ (seqSave store
        (attach_provider_identity owner (toString gd.id) (mk_user_data net gd tok))).length
        = store.length := by
  have hfind' : store.find? (fun u => u.email == some (resolve_email net gd tok))
      = some owner := hfind
  have hmem : owner ∈ store := List.mem_of_find?_eq_some hfind'
  have hpred := List.find?_some hfind'
  simp only [] at hpred
  have hconf : emailConflict store (toString gd.id) (resolve_email net gd tok) = true := by
    refine List.any_eq_true.mpr ⟨owner, hmem, ?_⟩
    simp only [hpred, Bool.true_and, bne_iff_ne, ne_eq]
    exact hdiff
  have hup : seqDB.update_or_create store (toString gd.id) (mk_user_data net gd tok) =
      .error "UNIQUE constraint failed: accounts_user.email" := by
    show seqUpdateOrCreate store (toString gd.id) (mk_user_data net gd tok) = _
    simp only [seqUpdateOrCreate, mk_user_data_email, hconf, if_true]
  have hmsg : emailInMsg "UNIQUE constraint failed: accounts_user.email" = true := by decide
  refine ⟨gocu_repair_attach net seqDB store gd tok _ owner hup hmsg hfind, rfl, rfl, rfl, ?_⟩
  simp [seqSave, replaceById]

/-- Witness for C1, at a one-row store whose row owns x@y.com under provider
id 77 while the incoming identity has provider id 42 and declares x@y.com. -/
theorem repair_attaches_provider_to_email_owner_witness :
    get_or_create_user netW seqDB [ownerW] gdW "t" =
      (.ok (seqSave [ownerW]
              (attach_provider_identity ownerW (toString gdW.id) (mk_user_data netW gdW "t")),
            attach_provider_identity ownerW (toString gdW.id) (mk_user_data netW gdW "t"),
            false),
        [.upsertCall (toString gdW.id) (mk_user_data netW gdW "t"),
          .getByEmailCall (resolve_email netW gdW "t"),
          .saveCall (attach_provider_identity ownerW (toString gdW.id) (mk_user_data netW gdW "t"))])
    ∧ (attach_provider_identity ownerW (toString gdW.id) (mk_user_data netW gdW "t")).github_id
        = some (toString gdW.id)
    ∧ (attach_provider_identity ownerW (toString gdW.id) (mk_user_data netW gdW "t")).github_username
        = gdW.login.getD ""
    ∧ (attach_provider_identity ownerW (toString gdW.id) (mk_user_data netW gdW "t")).github_profile_url
        = gdW.html_url.getD ""
    ∧ (seqSave [ownerW]
        (attach_provider_identity ownerW (toString gdW.id) (mk_user_data netW gdW "t"))).length
        = [ownerW].length :=
  repair_attaches_provider_to_email_owner netW [ownerW] gdW "t" ownerW (by decide) (by decide)

/-- C10: on the email-conflict repair path that attaches the provider identity
to the found email-owning account, the returned account differs from the found
one exactly in github_id, github_username and github_profile_url; its primary
key, email, names and remaining model fields are unchanged, and the only write
after the failed upsert is the save of that account. -/
theorem repair_modifies_only_provider_linkage {σ : Type}
    (net : Network) (db : DB σ) (s : σ) (gd : GitHubUserData) (tok : String)
    (msg : String) (u : User)
    (hup : db.update_or_create s (toString gd.id) (mk_user_data net gd tok) = .error msg)
    (hmsg : emailInMsg msg = true)
    (hget : db.get_by_email s (resolve_email net gd tok) = some u) :
    (get_or_create_user net db s gd tok).1 =
      .ok (db.save s (attach_provider_identity u (toString gd.id) (mk_user_data net gd tok)),
           attach_provider_identity u (toString gd.id) (mk_user_data net gd tok), false)
    ∧ (get_or_create_user net db s gd tok).2 =
        [.upsertCall (toString gd.id) (mk_user_data net gd tok),
          .getByEmailCall (resolve_email net gd tok),
          .saveCall (attach_provider_identity u (toString gd.id) (mk_user_data net gd tok))]
    ∧ (attach_provider_identity u (toString gd.id) (mk_user_data net gd tok)).github_id
        = some (toString gd.id)
    ∧ (attach_provider_identity u (toString gd.id) (mk_user_data net gd tok)).github_username
        = (mk_user_data net gd tok).github_username
    ∧ (attach_provider_identity u (toString gd.id) (mk_user_data net gd tok)).github_profile_url
        = (mk_user_data net gd tok).github_profile_url
    ∧ (attach_provider_identity u (toString gd.id) (mk_user_data net gd tok)).id = u.id
    ∧ (attach_provider_identity u (toString gd.id) (mk_user_data net gd tok)).email = u.email
    ∧ (attach_provider_identity u (toString gd.id) (mk_user_data net gd tok)).first_name
        = u.first_name
    ∧ (attach_provider_identity u (toString gd.id) (mk_user_data net gd tok)).last_name
        = u.last_name
    ∧ (attach_provider_identity u (toString gd.id) (mk_user_data net gd tok)).username
        = u.username
    ∧ (attach_provider_identity u (toString gd.id) (mk_user_data net gd tok)).user_type
        = u.user_type
    ∧ (attach_provider_identity u (toString gd.id) (mk_user_data net gd tok)).is_verified
        = u.is_verified := by
  have h := gocu_repair_attach net db s gd tok msg u hup hmsg hget
  exact ⟨by rw [h], by rw [h], rfl, rfl, rfl, rfl, rfl, rfl, rfl, rfl, rfl, rfl⟩

/-- Witness for C10, at the scripted store oracle whose write reports the email
uniqueness violation and whose email lookup finds ownerW. -/
theorem repair_modifies_only_provider_linkage_witness :
    (get_or_create_user netW dbAttachW () gdW "t").1 =
      .ok (dbAttachW.save ()
             (attach_provider_identity ownerW (toString gdW.id) (mk_user_data netW gdW "t")),
           attach_provider_identity ownerW (toString gdW.id) (mk_user_data netW gdW "t"), false)
    ∧ (get_or_create_user netW dbAttachW () gdW "t").2 =
        [.upsertCall (toString gdW.id) (mk_user_data netW gdW "t"),
          .getByEmailCall (resolve_email netW gdW "t"),
          .saveCall (attach_provider_identity ownerW (toString gdW.id) (mk_user_data netW gdW "t"))]
    ∧ (attach_provider_identity ownerW (toString gdW.id) (mk_user_data netW gdW "t")).github_id
        = some (toString gdW.id)
    ∧ (attach_provider_identity ownerW (toString gdW.id) (mk_user_data netW gdW "t")).github_username
        = (mk_user_data netW gdW "t").github_username
    ∧ (attach_provider_identity ownerW (toString gdW.id) (mk_user_data netW gdW "t")).github_profile_url
        = (mk_user_data netW gdW "t").github_profile_url
    ∧ (attach_provider_identity ownerW (toString gdW.id) (mk_user_data netW gdW "t")).id = ownerW.id
    ∧ (attach_provider_identity ownerW (toString gdW.id) (mk_user_data netW gdW "t")).email
        = ownerW.email
    ∧ (attach_provider_identity ownerW (toString gdW.id) (mk_user_data netW gdW "t")).first_name
        = ownerW.first_name
    ∧ (attach_provider_identity ownerW (toString gdW.id) (mk_user_data netW gdW "t")).last_name
        = ownerW.last_name
    ∧ (attach_provider_identity ownerW (toString gdW.id) (mk_user_data netW gdW "t")).username
        = ownerW.username
    ∧ (attach_provider_identity ownerW (toString gdW.id) (mk_user_data netW gdW "t")).user_type
        = ownerW.user_type
    ∧ (attach_provider_identity ownerW (toString gdW.id) (mk_user_data netW gdW "t")).is_verified
        = ownerW.is_verified :=
  repair_modifies_only_provider_linkage netW dbAttachW () gdW "t"
    "UNIQUE constraint failed: accounts_user.email" ownerW rfl (by decide) rfl

/-- C4: when the upsert fails with the email uniqueness violation but no
account owning the resolved email is found, get_or_create_user retries the
upsert by provider id with the defaults carrying the hardcoded fallback email
github-id at users.noreply.github.com and returns whichever outcome the retry
produces, a second failure escaping as the raw IntegrityError. -/
theorem vanished_owner_retries_with_fallback {σ : Type}
    (net : Network) (db : DB σ) (s : σ) (gd : GitHubUserData) (tok : String)
    (msg : String)
    (hup : db.update_or_create s (toString gd.id) (mk_user_data net gd tok) = .error msg)
    (hmsg : emailInMsg msg = true)
    (hget : db.get_by_email s (resolve_email net gd tok) = none) :
    (get_or_create_user net db s gd tok).1 =
      (match db.update_or_create s (toString gd.id)
          { mk_user_data net gd tok with email := fallback_email (toString gd.id) } with
        | .ok r => .ok r
        | .error msg2 => .error (.integrityError msg2))
    ∧ (get_or_create_user net db s gd tok).2 =
        [.upsertCall (toString gd.id) (mk_user_data net gd tok),
          .getByEmailCall (resolve_email net gd tok),
          .upsertCall (toString gd.id)
            { mk_user_data net gd tok with email := fallback_email (toString gd.id) }]
    ∧ fallback_email (toString gd.id) =
        "github-" ++ toString gd.id ++ "@users.noreply.github.com" := by
  have h := gocu_repair_fallback net db s gd tok msg hup hmsg hget
  exact ⟨by rw [h], by rw [h], rfl⟩

/-- Witness for C4, at the scripted store oracle modelling the vanished-owner
race: the retry with the fallback email succeeds with a created record. -/
theorem vanished_owner_retries_with_fallback_witness :
    (get_or_create_user netW dbVanishedW () gdW "t").1 =
      (match dbVanishedW.update_or_create () (toString gdW.id)
          { mk_user_data netW gdW "t" with email := fallback_email (toString gdW.id) } with
        | .ok r => .ok r
        | .error msg2 => .error (.integrityError msg2))
    ∧ (get_or_create_user netW dbVanishedW () gdW "t").2 =
        [.upsertCall (toString gdW.id) (mk_user_data netW gdW "t"),
          .getByEmailCall (resolve_email netW gdW "t"),
          .upsertCall (toString gdW.id)
            { mk_user_data netW gdW "t" with email := fallback_email (toString gdW.id) }]
    ∧ fallback_email (toString gdW.id) =
        "github-" ++ toString gdW.id ++ "@users.noreply.github.com" :=
  vanished_owner_retries_with_fallback netW dbVanishedW () gdW "t"
    "UNIQUE constraint failed: accounts_user.email" rfl (by decide) rfl

/-- C5: when the upsert fails with a uniqueness violation whose message does
not mention email, get_or_create_user raises GitHubOAuthError carrying the
underlying message and performs no further store interaction: no email lookup,
no save, no retry. -/
theorem non_email_uniqueness_fatal {σ : Type}
    (net : Network) (db : DB σ) (s : σ) (gd : GitHubUserData) (tok : String)
    (msg : String)
    (hup : db.update_or_create s (toString gd.id) (mk_user_data net gd tok) = .error msg)
    (hmsg : emailInMsg msg = false) :
    (get_or_create_user net db s gd tok).1 =
      .error (.gitHubOAuthError ("User creation failed: " ++ msg))
    ∧ (get_or_create_user net db s gd tok).2 =
        [.upsertCall (toString gd.id) (mk_user_data net gd tok)] := by
  have h := gocu_fatal net db s gd tok msg hup hmsg
  exact ⟨by rw [h], by rw [h]⟩

/-- Witness for C5, at the scripted store oracle whose write reports a
uniqueness violation on username. -/
theorem non_email_uniqueness_fatal_witness :
    (get_or_create_user netW dbUsernameFailW () gdW "t").1 =
      .error (.gitHubOAuthError
        ("User creation failed: " ++ "UNIQUE constraint failed: accounts_user.username"))
    ∧ (get_or_create_user netW dbUsernameFailW () gdW "t").2 =
        [.upsertCall (toString gdW.id) (mk_user_data netW gdW "t")] :=
  non_email_uniqueness_fatal netW dbUsernameFailW () gdW "t"
    "UNIQUE constraint failed: accounts_user.username" rfl (by decide)

/-- C6: authenticate_user sequences token exchange, profile fetch and account
reconciliation; a success of the body is returned unchanged, a GitHubOAuthError
raised by any step is re-raised unchanged, any other exception is wrapped into
a GitHubOAuthError whose detail keeps the underlying cause text, and every
error surfacing from authenticate_user is a GitHubOAuthError. -/
theorem authenticate_wraps_and_passes {σ : Type}
    (net : Network) (db : DB σ) (s : σ) (code : String) :
    (∀ r evs, authenticate_user_body net db s code = (.ok r, evs) →
      authenticate_user net db s code = (.ok r, evs))
    ∧ (∀ d evs, authenticate_user_body net db s code = (.error (.gitHubOAuthError d), evs) →
      authenticate_user net db s code = (.error (.gitHubOAuthError d), evs))
    ∧ (∀ m evs, authenticate_user_body net db s code = (.error (.integrityError m), evs) →
      authenticate_user net db s code =
        (.error (.gitHubOAuthError ("Authentication failed: " ++ m)), evs))
    ∧ (∀ e evs, authenticate_user net db s code = (.error e, evs) →
      ∃ d, e = .gitHubOAuthError d) := by
  refine ⟨fun r evs h => ?_, fun d evs h => ?_, fun m evs h => ?_, fun e evs h => ?_⟩
  · simp only [authenticate_user, h]
  · simp only [authenticate_user, h, wrap_exception]
  · simp only [authenticate_user, h, wrap_exception]
  · revert h
    simp only [authenticate_user]
    cases hb : authenticate_user_body net db s code with
    | mk res evs2 =>
      cases res with
      | ok r => intro h; cases h
      | error e2 =>
        intro h
        cases e2 with
        | gitHubOAuthError d => exact ⟨d, by cases h; rfl⟩
        | integrityError m => exact ⟨"Authentication failed: " ++ m, by cases h; rfl⟩

/-- Witness for C6: a transport failure of the token exchange is passed through
as the GitHubOAuthError it already is, and an IntegrityError escaping the
fallback retry is wrapped keeping its text. -/
theorem authenticate_wraps_and_passes_witness :
    authenticate_user netW seqDB [] "c" =
      (.error (.gitHubOAuthError "GitHub API request failed: timeout"), [])
    ∧ authenticate_user netOKW dbRetryFailW () "c" =
      (.error (.gitHubOAuthError
          "Authentication failed: UNIQUE constraint failed: accounts_user.email"),
        (get_or_create_user netOKW dbRetryFailW () gdW "tok").2) :=
  ⟨(authenticate_wraps_and_passes netW seqDB [] "c").2.1
      "GitHub API request failed: timeout" [] rfl,
    (authenticate_wraps_and_passes netOKW dbRetryFailW () "c").2.2.1
      "UNIQUE constraint failed: accounts_user.email"
      (get_or_create_user netOKW dbRetryFailW () gdW "tok").2 rfl⟩

/-- C7: a transport failure of the token exchange call makes authenticate_user
raise a GitHubOAuthError carrying the request failure text, with an empty
database interaction trace: the account store is neither read nor written. -/
theorem token_transport_failure_no_store_writes {σ : Type}
    (net : Network) (db : DB σ) (s : σ) (code m : String)
    (h : net.tokenResponse code = .error m) :
    authenticate_user net db s code =
      (.error (.gitHubOAuthError ("GitHub API request failed: " ++ m)), []) := by
  simp only [authenticate_user, authenticate_user_body, get_access_token, h, wrap_exception]

/-- Witness for C7, at the network whose token exchange times out. -/
theorem token_transport_failure_no_store_writes_witness :
    authenticate_user netW seqDB [] "c" =
      (.error (.gitHubOAuthError ("GitHub API request failed: " ++ "timeout")), []) :=
  token_transport_failure_no_store_writes netW seqDB [] "c" "timeout" rfl

/-- C9: a transport failure of the verified-emails fetch makes get_user_emails
return the empty sequence instead of raising; under it an identity with no
truthy declared email resolves to the synthesized placeholder, and the whole
reconciliation behaves exactly as it would on an empty email list, for any
store oracle. -/
theorem email_fetch_failure_degrades (net : Network) (tok m : String)
    (h : net.emailsResponse tok = .error m) :
    get_user_emails net tok = []
    ∧ (∀ gd : GitHubUserData, optFalsy gd.email = true →
        resolve_email net gd tok = placeholder_email gd)
    ∧ (∀ (gd : GitHubUserData) (σ : Type) (db : DB σ) (s : σ),
        get_or_create_user net db s gd tok =
          get_or_create_user { net with emailsResponse := fun _ => .ok [] } db s gd tok) := by
  have hg : get_user_emails net tok = [] := by
    simp only [get_user_emails, h]
  refine ⟨hg, fun gd h1 => ?_, fun gd σ db s => ?_⟩
  · have he1 : (if optFalsy gd.email = true then
        _get_primary_email (get_user_emails net tok) else gd.email) = none := by
      rw [h1, hg]
      simp [_get_primary_email, findPrimaryVerifiedEmail, findVerifiedEmail]
    simp only [resolve_email]
    rw [he1]
    exact if_pos rfl
  · have hr : resolve_email net gd tok =
        resolve_email { net with emailsResponse := fun _ => .ok [] } gd tok := by
      simp only [resolve_email, hg]
      rfl
    have hm : mk_user_data net gd tok =
        mk_user_data { net with emailsResponse := fun _ => .ok [] } gd tok := by
      simp only [mk_user_data, hr]
    simp only [get_or_create_user, hr, hm]

/-- Witness for C9, at the network whose email fetch fails. -/
theorem email_fetch_failure_degrades_witness :
    get_user_emails netW "t" = []
    ∧ resolve_email netW gdNoEmailW "t" = placeholder_email gdNoEmailW
    ∧ get_or_create_user netW seqDB [] gdNoEmailW "t" =
        get_or_create_user { netW with emailsResponse := fun _ => .ok [] } seqDB []
          gdNoEmailW "t" :=
  ⟨(email_fetch_failure_degrades netW "t" "down" rfl).1,
    (email_fetch_failure_degrades netW "t" "down" rfl).2.1 gdNoEmailW (by decide),
    (email_fetch_failure_degrades netW "t" "down" rfl).2.2 gdNoEmailW (List User) seqDB []⟩

/-- C8: the spec asks for a 400 response with an error body when the code field
is missing, but the view subscripts the request data before that check and
outside the try block, so a request without the code key raises KeyError and
produces no 400 response; the dedicated 400 branch is reachable only when the
key is present with a falsy value, and a successful flow does carry the minted
refresh and access session tokens. -/
theorem missing_code_key_raises_keyerror :
    github_oauth_callback netW seqDB [] issueW { code := none } = .error "KeyError: code"
    ∧ github_oauth_callback netW seqDB [] issueW { code := some "" } =
        .ok { status := 400, body := some (.errorBody "Authorization code is required") }
    ∧ github_oauth_callback netOKW seqDB [] issueW { code := some "c" } =
        .ok { status := 200, body := some (.tokenBody "refresh-token" "access-token") } :=
  ⟨rfl, rfl, rfl⟩
